import Mathlib

/-!
# Verification of the flight-search agent core

Shallow embedding of `process_query` from `src/flight_agent/agent.py` and of the
tool layer from `src/flight_agent/tools/search_flights_tool.py`.

The language model and the network-backed capability adapters are external
collaborators; they are modelled as oracles: the model as a finite script of
responses consumed in order (an exhausted script models a transport failure,
which in Python surfaces as an exception caught by the `except` block), and the
adapter table as a function that either returns a payload dictionary or raises
(`Except.error`). Everything else is translated directly from the source.
-/

namespace FlightAgent

/-- One flight record as consumed by the rendering loop in `process_query`
(agent.py lines 119-122). Fields hold the already-stringified values that the
Python f-string would interpolate; `stops` is kept numeric since adapters
produce integers there. -/
structure FlightRecord where
  airline : String
  origin : String
  destination : String
  departure_time : String
  arrival_time : String
  stops : Nat
  price_usd : String
  currency : String
  notes : String
deriving DecidableEq

/-- The dictionary returned by a capability adapter and read back through
`part.function_response.response` (agent.py lines 111-114): the three keys the
code looks up with `.get`, each possibly absent. -/
structure Payload where
  flights : Option (List FlightRecord) := none
  summary : Option String := none
  error : Option String := none
deriving DecidableEq

/-- A capability-invocation request emitted by the model
(`part.function_call`). Argument values are kept as strings; the orchestrator
passes them through verbatim. -/
structure FunctionCall where
  name : String
  args : List (String × String)
deriving DecidableEq

/-- A capability-result echo inside a model response
(`part.function_response`). -/
structure FunctionResponse where
  name : String
  response : Payload
deriving DecidableEq

/-- One content part of a model response. The Python code probes the object
with `hasattr`/`getattr`, so all three fields are optional. -/
structure Part where
  text : Option String := none
  function_call : Option FunctionCall := none
  function_response : Option FunctionResponse := none
deriving DecidableEq

/-- `candidate.content`: an ordered list of parts. -/
structure Content where
  parts : List Part
deriving DecidableEq

/-- One candidate of a model response. -/
structure Candidate where
  content : Content
deriving DecidableEq

/-- A model response: a list of candidates; the code only ever inspects
`candidates[0]`. -/
structure Response where
  candidates : List Candidate
deriving DecidableEq

/-- Python truthiness of an optional string: present and non-empty. -/
def truthy : Option String → Bool
  | none => false
  | some s => decide (s ≠ "")

/-- Python truthiness of an optional list: present and non-empty. -/
def truthyList : Option (List FlightRecord) → Bool
  | none => false
  | some l => decide (l ≠ [])

/-- `getattr(response.candidates[0].content.parts[0], "function_call", None)`
guarded by `response.candidates` and `...parts` being non-empty: the loop
condition of agent.py lines 60-64. -/
def firstFunctionCall (r : Response) : Option FunctionCall :=
  match r.candidates with
  | [] => none
  | c :: _ =>
    match c.content.parts with
    | [] => none
    | p :: _ => p.function_call

/-- Python `enumerate(flights, 1)`. -/
def enumFrom : Nat → List FlightRecord → List (Nat × FlightRecord)
  | _, [] => []
  | n, f :: fs => (n, f) :: enumFrom (n + 1) fs

/-- The per-flight f-string of agent.py line 121, verbatim. -/
def formatFlight (idx : Nat) (f : FlightRecord) : String :=
  match f with
  | { airline := a, origin := o, destination := d, departure_time := dep,
      arrival_time := arr, stops := st, price_usd := pr, currency := cur,
      notes := no } =>
    s!"{idx}. Airline: {a}\n   Route: {o} → {d}\n   Departure: {dep}\n   Arrival: {arr}\n   Stops: {st}\n   Price: ${pr} {cur}\n   Flight Number: {no}"

/-- Rendering of one `function_response.response` dictionary: the
error / flights / summary branching of agent.py lines 112-126, in source
order (`if error: ... elif flights: ... elif summary: ...`). -/
def renderPayload (p : Payload) : List String :=
  if truthy p.error then
    ["Sorry, there was a problem: " ++ p.error.getD ""]
  else if truthyList p.flights then
    ("\nHere are the best flight options I found for you:" ::
      (enumFrom 1 (p.flights.getD [])).map (fun x => formatFlight x.1 x.2)) ++
    (if truthy p.summary then ["\nSummary: " ++ p.summary.getD ""] else [])
  else if truthy p.summary then [p.summary.getD ""]
  else []

/-- Rendering of one content part (agent.py lines 108-126): a truthy `text`
attribute contributes the text verbatim, and a present `function_response`
contributes the rendering of its payload; both checks run on the same part. -/
def renderPart (p : Part) : List String :=
  (match p.text with
    | some s => if s.isEmpty then [] else [s]
    | none => []) ++
  (match p.function_response with
    | some fr => renderPayload fr.response
    | none => [])

/-- Final-response extraction of agent.py lines 106-133. Returns `none`
exactly where the Python function falls off the end of the `try` block and
implicitly returns `None`: when the final response has no candidates or the
first candidate has no parts. Otherwise joins the collected parts with a
blank line, or returns the fixed apology when nothing rendered. -/
def aggregateFinal (r : Response) : Option String :=
  match r.candidates with
  | [] => none
  | c :: _ =>
    match c.content.parts with
    | [] => none
    | ps =>
      let textParts := (ps.map renderPart).flatten
      if textParts.isEmpty then
        some "Sorry, I couldn\x27t generate a response for that query after processing."
      else
        some (String.intercalate "\n\n" textParts)

/-! ## The tool-calling loop of `process_query` (agent.py lines 49-136) -/

/-- Content of one outgoing `send_message_async` call: either the initial user
query string or a `Part.from_function_response(name, response)` value. -/
inductive SentContent where
  | userText (s : String)
  | funcResponse (name : String) (payload : Payload)
deriving DecidableEq

/-- One `send_message_async` call together with the list of tool names passed
via its `tools=` argument (empty when the Python call omits the argument). -/
structure SendRec where
  content : SentContent
  tools : List String
deriving DecidableEq

/-- One entry of the chat history owned by the Vertex AI chat session: an
outgoing message or a model response. -/
inductive Message where
  | out (c : SentContent)
  | modelMsg (r : Response)
deriving DecidableEq

/-- Result of running the `while` loop: the value of `response` when the loop
exits (or the exception that escaped to the `except` block), the sends the
loop performed with their offered tools, and the history entries it
appended. -/
structure LoopOut where
  res : Except String Response
  sends : List SendRec
  hist : List Message

/-- The keys of `AVAILABLE_FLIGHT_TOOLS` in search_flights_tool.py
(lines 308-312). -/
def AVAILABLE_FLIGHT_TOOLS : List String :=
  ["search_flights", "search_google_flights"]

/-- The capability-adapter oracle standing for the values of
`AVAILABLE_FLIGHT_TOOLS`: dispatching a name with arguments either returns a
payload dictionary or raises. -/
abbrev ToolOracle := String → List (String × String) → Except String Payload

/-- The `while` loop of agent.py lines 60-103, driven by the remaining model
script. Each iteration inspects `parts[0].function_call` of the current
response; a registered name is dispatched through the oracle and its result
sent back (offering `search_google_flights` after `search_flights`, nothing
otherwise); an unregistered name gets an `Unknown function` error result sent
with no tools, followed by `break`. An exhausted script models a transport
failure on `send_message_async`, raising to the `except` block; the outgoing
message is still recorded as appended before the suspension. -/
def toolLoop (ct : ToolOracle) : List Response → Response → LoopOut
  | script, response =>
    match firstFunctionCall response with
    | none => ⟨.ok response, [], []⟩
    | some fc =>
      if fc.name ∈ AVAILABLE_FLIGHT_TOOLS then
        match ct fc.name fc.args with
        | .error e => ⟨.error e, [], []⟩
        | .ok payload =>
          let content := SentContent.funcResponse fc.name payload
          let tools :=
            if fc.name = "search_flights" then ["search_google_flights"] else []
          match script with
          | [] => ⟨.error "ModelUnavailable", [⟨content, tools⟩], [.out content]⟩
          | r :: rest =>
            let o := toolLoop ct rest r
            ⟨o.res, ⟨content, tools⟩ :: o.sends,
             .out content :: .modelMsg r :: o.hist⟩
      else
        let payload : Payload := { error := some ("Unknown function " ++ fc.name) }
        let content := SentContent.funcResponse fc.name payload
        match script with
        | [] => ⟨.error "ModelUnavailable", [⟨content, []⟩], [.out content]⟩
        | r :: _ =>
          ⟨.ok r, [⟨content, []⟩], [.out content, .modelMsg r]⟩

/-- What `process_query` hands back given the loop outcome: the aggregation of
the final response on normal exit, or the `except` block f-string
(agent.py line 136) when an exception escaped. -/
def retOf : Except String Response → Option String
  | .ok rFinal => aggregateFinal rFinal
  | .error e => some ("An error occurred while processing your request: " ++ e)

/-- Observable outcome of one `process_query` call: the returned value
(`none` models the Python implicit `None` return), the sends performed with
their offered tools, and the session history. -/
structure RunOut where
  ret : Option String
  sends : List SendRec
  history : List Message

/-- `process_query` (agent.py lines 49-136) over the model-script and
adapter oracles: the initial send offers exactly `search_flights`
(lines 56-58), then the tool loop runs, then the final response is
aggregated; any exception is caught and formatted by the `except` block. -/
def process_query (ct : ToolOracle) (script : List Response)
    (user_query : String) : RunOut :=
  match script with
  | [] =>
    ⟨retOf (.error "ModelUnavailable"),
     [⟨.userText user_query, ["search_flights"]⟩],
     [.out (.userText user_query)]⟩
  | r :: rest =>
    let o := toolLoop ct rest r
    ⟨retOf o.res,
     ⟨.userText user_query, ["search_flights"]⟩ :: o.sends,
     .out (.userText user_query) :: .modelMsg r :: o.hist⟩

/-! ## Location lookup and unified flight search
(search_flights_tool.py lines 126-144 and 273-306) -/

/-- One entry built by `lookup_sky_scrapper_location` from the location API
response (search_flights_tool.py lines 110-116); every field comes from a
`.get` and may be absent. -/
structure LocEntry where
  name : Option String := none
  iata : Option String := none
  skyId : Option String := none
  entityId : Option String := none
  type : Option String := none
deriving DecidableEq

/-- The dictionary returned by `lookup_sky_scrapper_location`: either an
`error` entry or a `results` list. Both fields are kept optional so that the
caller checks (`"error" in d`, `not d.get("results")`) can be modelled
exactly. -/
structure LocResult where
  error : Option String := none
  results : Option (List LocEntry) := none
deriving DecidableEq

/-- The failure test applied to one lookup result in
`get_sky_ids_for_airports` (lines 132 and 134): the `error` key is present, or
`results` is absent or empty (Python falsiness of `d.get("results")`). -/
def locFailed (li : LocResult) : Bool :=
  li.error.isSome ||
    (match li.results with
     | none => true
     | some l => l.isEmpty)

/-- Outcome of `get_sky_ids_for_airports`: an error dictionary or the four
identifiers taken from the first result of each lookup. -/
inductive SkyIdsResult where
  | err (msg : String)
  | ids (originSkyId originEntityId destinationSkyId destinationEntityId :
      Option String)
deriving DecidableEq

/-- `get_sky_ids_for_airports` (search_flights_tool.py lines 126-144): both
lookups are performed, then the origin result is checked first, then the
destination result; on success the first entry of each result list supplies
the identifiers. The location-lookup HTTP calls are the oracle `lookup`. -/
def get_sky_ids_for_airports (lookup : String → LocResult)
    (origin destination : String) : SkyIdsResult :=
  let origin_info := lookup origin
  let destination_info := lookup destination
  if origin_info.error.isSome then
    .err ("Could not find Sky Scrapper location for origin: " ++ origin)
  else
    match origin_info.results with
    | none => .err ("Could not find Sky Scrapper location for origin: " ++ origin)
    | some [] => .err ("Could not find Sky Scrapper location for origin: " ++ origin)
    | some (o :: _) =>
      if destination_info.error.isSome then
        .err ("Could not find Sky Scrapper location for destination: " ++ destination)
      else
        match destination_info.results with
        | none =>
          .err ("Could not find Sky Scrapper location for destination: " ++ destination)
        | some [] =>
          .err ("Could not find Sky Scrapper location for destination: " ++ destination)
        | some (d :: _) => .ids o.skyId o.entityId d.skyId d.entityId

/-- The argument record handed to `search_flights_sky_scrapper` by
`unified_search_flights` (lines 292-306). -/
structure SkySearchArgs where
  originSkyId : Option String
  destinationSkyId : Option String
  originEntityId : Option String
  destinationEntityId : Option String
  departure_date : String
  return_date : Option String
  cabinClass : String
  adults : Nat
  sortBy : String
  currency : String
  market : String
  countryCode : String
  preferences : Option (List String)
deriving DecidableEq

/-- `unified_search_flights` (search_flights_tool.py lines 273-306): resolves
the endpoints through `get_sky_ids_for_airports`; a lookup error is returned
as an error dictionary, otherwise the downstream Sky Scrapper search (the
oracle `sky_search`, which catches its own exceptions and returns a payload
dictionary) is invoked with the resolved identifiers. -/
def unified_search_flights (lookup : String → LocResult)
    (sky_search : SkySearchArgs → Payload)
    (origin destination departure_date : String) (return_date : Option String)
    (cabinClass : String) (adults : Nat) (sortBy : String) (currency : String)
    (market : String) (countryCode : String)
    (preferences : Option (List String)) : Payload :=
  match get_sky_ids_for_airports lookup origin destination with
  | .err e => { error := some e }
  | .ids oS oE dS dE =>
    sky_search
      { originSkyId := oS, destinationSkyId := dS, originEntityId := oE,
        destinationEntityId := dE, departure_date := departure_date,
        return_date := return_date, cabinClass := cabinClass, adults := adults,
        sortBy := sortBy, currency := currency, market := market,
        countryCode := countryCode, preferences := preferences }

/-! ## Unfolding lemmas for the tool loop -/

/-- A response with no leading invocation request ends the loop at once. -/
lemma toolLoop_none (ct : ToolOracle) (script : List Response) (r : Response)
    (h : firstFunctionCall r = none) :
    toolLoop ct script r = ⟨.ok r, [], []⟩ := by
  rw [toolLoop.eq_1, h]

/-- The loop looks at nothing of the current response beyond its leading
invocation request. -/
lemma toolLoop_congr (ct : ToolOracle) (script : List Response)
    (r₁ r₂ : Response) (fc : FunctionCall)
    (h₁ : firstFunctionCall r₁ = some fc) (h₂ : firstFunctionCall r₂ = some fc) :
    toolLoop ct script r₁ = toolLoop ct script r₂ := by
  rw [toolLoop.eq_1, toolLoop.eq_1, h₁, h₂]

/-- One loop iteration for a registered name whose adapter returns a payload:
the result is sent (offering the second capability exactly after
`search_flights`) and the loop continues on the next scripted response. -/
lemma toolLoop_known_ok (ct : ToolOracle) (rest : List Response)
    (r r₂ : Response) (fc : FunctionCall) (p : Payload)
    (h₁ : firstFunctionCall r = some fc)
    (hm : fc.name ∈ AVAILABLE_FLIGHT_TOOLS)
    (h₃ : ct fc.name fc.args = .ok p) :
    toolLoop ct (r₂ :: rest) r =
      ⟨(toolLoop ct rest r₂).res,
       ⟨.funcResponse fc.name p,
        if fc.name = "search_flights" then ["search_google_flights"] else []⟩ ::
         (toolLoop ct rest r₂).sends,
       .out (.funcResponse fc.name p) :: .modelMsg r₂ ::
         (toolLoop ct rest r₂).hist⟩ := by
  rw [toolLoop.eq_1]
  simp only [h₁, if_pos hm, h₃]

/-- A raising adapter escapes the loop as an exception. -/
lemma toolLoop_known_raise (ct : ToolOracle) (script : List Response)
    (r : Response) (fc : FunctionCall) (e : String)
    (h₁ : firstFunctionCall r = some fc)
    (hm : fc.name ∈ AVAILABLE_FLIGHT_TOOLS)
    (h₃ : ct fc.name fc.args = .error e) :
    toolLoop ct script r = ⟨.error e, [], []⟩ := by
  rw [toolLoop.eq_1]
  simp only [h₁, if_pos hm, h₃]

/-- One loop iteration for an unregistered name: the error result is sent with
no tools and the loop breaks with the reply to that send. -/
lemma toolLoop_unknown (ct : ToolOracle) (rest : List Response)
    (r r₂ : Response) (fc : FunctionCall)
    (h₁ : firstFunctionCall r = some fc)
    (hm : fc.name ∉ AVAILABLE_FLIGHT_TOOLS) :
    toolLoop ct (r₂ :: rest) r =
      ⟨.ok r₂,
       [⟨.funcResponse fc.name { error := some ("Unknown function " ++ fc.name) }, []⟩],
       [.out (.funcResponse fc.name { error := some ("Unknown function " ++ fc.name) }),
        .modelMsg r₂]⟩ := by
  rw [toolLoop.eq_1]
  simp only [h₁, if_neg hm]

/-- `toolLoop_known_ok` when the script is exhausted: the outgoing result is
recorded and the send raises. -/
lemma toolLoop_known_ok_nil (ct : ToolOracle) (r : Response)
    (fc : FunctionCall) (p : Payload)
    (h₁ : firstFunctionCall r = some fc)
    (hm : fc.name ∈ AVAILABLE_FLIGHT_TOOLS)
    (h₃ : ct fc.name fc.args = .ok p) :
    toolLoop ct [] r =
      ⟨.error "ModelUnavailable",
       [⟨.funcResponse fc.name p,
         if fc.name = "search_flights" then ["search_google_flights"] else []⟩],
       [.out (.funcResponse fc.name p)]⟩ := by
  rw [toolLoop.eq_1]
  simp only [h₁, if_pos hm, h₃]

/-- `toolLoop_unknown` when the script is exhausted. -/
lemma toolLoop_unknown_nil (ct : ToolOracle) (r : Response) (fc : FunctionCall)
    (h₁ : firstFunctionCall r = some fc)
    (hm : fc.name ∉ AVAILABLE_FLIGHT_TOOLS) :
    toolLoop ct [] r =
      ⟨.error "ModelUnavailable",
       [⟨.funcResponse fc.name { error := some ("Unknown function " ++ fc.name) }, []⟩],
       [.out (.funcResponse fc.name { error := some ("Unknown function " ++ fc.name) })]⟩ := by
  rw [toolLoop.eq_1]
  simp only [h₁, if_neg hm]

/-- Every send the loop performs carries a capability result, and its offered
tools are `search_google_flights` exactly when the result is the one of
`search_flights`, nothing otherwise. -/
lemma toolLoop_sends_shape (ct : ToolOracle) :
    ∀ (script : List Response) (response : Response),
      ∀ rec ∈ (toolLoop ct script response).sends,
        ∃ n p, rec.content = SentContent.funcResponse n p ∧
          rec.tools =
            (if n = "search_flights" then ["search_google_flights"] else []) := by
  intro script
  induction script with
  | nil =>
    intro response rec hrec
    rcases h : firstFunctionCall response with _ | fc
    · rw [toolLoop_none ct [] response h] at hrec
      simp at hrec
    · by_cases hm : fc.name ∈ AVAILABLE_FLIGHT_TOOLS
      · rcases h3 : ct fc.name fc.args with e | p
        · rw [toolLoop_known_raise ct [] response fc e h hm h3] at hrec
          simp at hrec
        · rw [toolLoop_known_ok_nil ct response fc p h hm h3] at hrec
          simp only [List.mem_singleton] at hrec
          subst hrec
          exact ⟨fc.name, p, rfl, rfl⟩
      · rw [toolLoop_unknown_nil ct response fc h hm] at hrec
        simp only [List.mem_singleton] at hrec
        subst hrec
        refine ⟨fc.name, _, rfl, ?_⟩
        have hne : fc.name ≠ "search_flights" := by
          intro hcontra
          exact hm (by rw [hcontra]; decide)
        rw [if_neg hne]
  | cons r₂ rest ih =>
    intro response rec hrec
    rcases h : firstFunctionCall response with _ | fc
    · rw [toolLoop_none ct (r₂ :: rest) response h] at hrec
      simp at hrec
    · by_cases hm : fc.name ∈ AVAILABLE_FLIGHT_TOOLS
      · rcases h3 : ct fc.name fc.args with e | p
        · rw [toolLoop_known_raise ct (r₂ :: rest) response fc e h hm h3] at hrec
          simp at hrec
        · rw [toolLoop_known_ok ct rest response r₂ fc p h hm h3] at hrec
          rcases List.mem_cons.mp hrec with hrec | hrec
          · subst hrec
            exact ⟨fc.name, p, rfl, rfl⟩
          · exact ih r₂ rec hrec
      · rw [toolLoop_unknown ct rest response r₂ fc h hm] at hrec
        simp only [List.mem_singleton] at hrec
        subst hrec
        refine ⟨fc.name, _, rfl, ?_⟩
        have hne : fc.name ≠ "search_flights" := by
          intro hcontra
          exact hm (by rw [hcontra]; decide)
        rw [if_neg hne]

/-! ## Unfolding lemmas for the location lookup -/

/-- When the origin lookup fails (error key present, or `results` absent or
empty), `get_sky_ids_for_airports` returns the error naming the origin; the
destination result is never consulted. -/
lemma get_sky_ids_err_origin (lookup : String → LocResult) (o d : String)
    (h : locFailed (lookup o) = true) :
    get_sky_ids_for_airports lookup o d =
      .err ("Could not find Sky Scrapper location for origin: " ++ o) := by
  have h' := h
  unfold locFailed at h'
  simp only [get_sky_ids_for_airports]
  rcases hE : (lookup o).error with _ | e
  · rcases hR : (lookup o).results with _ | l
    · rfl
    · rw [hE, hR] at h'
      simp only [Option.isSome_none, Bool.false_or] at h'
      have hl : l = [] := by
        cases l with
        | nil => rfl
        | cons a t => simp at h'
      subst hl
      rfl
  · rfl

/-- When the origin lookup succeeds but the destination lookup fails,
`get_sky_ids_for_airports` returns the error naming the destination. -/
lemma get_sky_ids_err_destination (lookup : String → LocResult) (o d : String)
    (h₀ : locFailed (lookup o) = false) (h : locFailed (lookup d) = true) :
    get_sky_ids_for_airports lookup o d =
      .err ("Could not find Sky Scrapper location for destination: " ++ d) := by
  unfold locFailed at h₀ h
  simp only [Bool.or_eq_false_iff] at h₀
  obtain ⟨hE0, hR0⟩ := h₀
  have hE0' : (lookup o).error = none := by
    rcases hE : (lookup o).error with _ | e
    · rfl
    · rw [hE] at hE0; simp at hE0
  rcases hR : (lookup o).results with _ | l
  · rw [hR] at hR0; simp at hR0
  · rw [hR] at hR0
    cases l with
    | nil => simp at hR0
    | cons x xs =>
      simp only [get_sky_ids_for_airports]
      rw [hE0', hR]
      rcases hEd : (lookup d).error with _ | e
      · rcases hRd : (lookup d).results with _ | ld
        · rfl
        · rw [hEd, hRd] at h
          simp only [Option.isSome_none, Bool.false_or] at h
          have hl : ld = [] := by
            cases ld with
            | nil => rfl
            | cons a t => simp at h
          subst hl
          rfl
      · rfl

/-! ## Claims -/

/-- Claim C1, code check: when the final model response has no candidates, the
loop condition and the aggregation guard are both false, the function falls
off the end of its `try` block, and `process_query` resolves to the Python
`None` (modelled as `none`) rather than a string — contradicting the claim
that the public entry point always returns a string. -/
theorem C1_none_on_candidateless_final_response :
    (process_query (fun _ _ => .ok {}) [{ candidates := [] }] "hi").ret = none := rfl

/-- Claim C2 counterexample: the model answers the initial send with pure text
and no invocation request, and the caller receives exactly that text as the
answer — a synthesized answer built from the response text, not a non-empty
failure string, and no FAILED outcome occurs. -/
theorem C2_counterexample :
    (process_query (fun _ _ => .ok {})
        [{ candidates := [{ content := { parts :=
            [{ text := some "Which date works for you?" }] } }] }]
        "find flights NYC to LON").ret = some "Which date works for you?" := rfl

/-- Claim C2, amended: when the response to the initial send carries no
leading invocation request, the dispatch loop is skipped, no further sends
happen, and the caller receives the aggregation of that very response (its
text, the fixed apology when nothing renders, or the Python `None` when the
response has no candidates or parts); the run is not treated as a failure. -/
theorem C2_no_invocation_is_aggregated_not_failed (ct : ToolOracle)
    (script : List Response) (q : String) (r : Response)
    (h : firstFunctionCall r = none) :
    process_query ct (r :: script) q =
      ⟨aggregateFinal r, [⟨.userText q, ["search_flights"]⟩],
       [.out (.userText q), .modelMsg r]⟩ := by
  simp only [process_query, toolLoop_none ct script r h, retOf]

/-- Witness for the amended claim C2 at a concrete text-only response. -/
theorem C2_no_invocation_is_aggregated_not_failed_witness :
    process_query (fun _ _ => .ok {})
        [{ candidates := [{ content := { parts := [{ text := some "hello" }] } }] }]
        "q" =
      ⟨aggregateFinal
         { candidates := [{ content := { parts := [{ text := some "hello" }] } }] },
       [⟨.userText "q", ["search_flights"]⟩],
       [.out (.userText "q"),
        .modelMsg
          { candidates := [{ content := { parts := [{ text := some "hello" }] } }] }]⟩ :=
  C2_no_invocation_is_aggregated_not_failed (fun _ _ => .ok {}) [] "q" _ rfl

/-- Claim C3 counterexample: on the very first turn the model requests
`search_google_flights` — registered, but not the designated first
capability. The orchestrator dispatches it anyway: the adapter payload is
sent back (second send of the trace) and the run completes normally with the
model answer, instead of transitioning to a FAILED state. -/
theorem C3_counterexample :
    (process_query
        (fun n _ => if n = "search_google_flights"
          then .ok { summary := some "google ok" } else .error "boom")
        [{ candidates := [{ content := { parts :=
            [{ function_call := some ⟨"search_google_flights", [("origin", "JFK")]⟩ }] } }] },
         { candidates := [{ content := { parts := [{ text := some "done" }] } }] }]
        "q").ret = some "done" ∧
    (process_query
        (fun n _ => if n = "search_google_flights"
          then .ok { summary := some "google ok" } else .error "boom")
        [{ candidates := [{ content := { parts :=
            [{ function_call := some ⟨"search_google_flights", [("origin", "JFK")]⟩ }] } }] },
         { candidates := [{ content := { parts := [{ text := some "done" }] } }] }]
        "q").sends =
      [⟨.userText "q", ["search_flights"]⟩,
       ⟨.funcResponse "search_google_flights" { summary := some "google ok" }, []⟩] :=
  ⟨rfl, rfl⟩

/-- Claim C3, amended: a first-turn request for the registered second
capability is dispatched rather than rejected: its adapter result is sent
back with no capabilities offered and the loop continues on the next scripted
response. Only the offering of capabilities is restricted per turn; the code
never enters a failure state for out-of-order invocation of a registered
name. -/
theorem C3_out_of_order_request_is_dispatched (ct : ToolOracle)
    (rest : List Response) (q : String) (r r₂ : Response) (fc : FunctionCall)
    (p : Payload)
    (h₁ : firstFunctionCall r = some fc)
    (h₂ : fc.name = "search_google_flights")
    (h₃ : ct fc.name fc.args = .ok p) :
    process_query ct (r :: r₂ :: rest) q =
      ⟨retOf (toolLoop ct rest r₂).res,
       ⟨.userText q, ["search_flights"]⟩ ::
         ⟨.funcResponse "search_google_flights" p, []⟩ ::
           (toolLoop ct rest r₂).sends,
       .out (.userText q) :: .modelMsg r ::
         .out (.funcResponse "search_google_flights" p) :: .modelMsg r₂ ::
           (toolLoop ct rest r₂).hist⟩ := by
  have hm : fc.name ∈ AVAILABLE_FLIGHT_TOOLS := by rw [h₂]; decide
  have hstep := toolLoop_known_ok ct rest r r₂ fc p h₁ hm h₃
  rw [h₂, if_neg (by decide : ¬ ("search_google_flights" = "search_flights"))] at hstep
  simp only [process_query, hstep]

/-- Witness for the amended claim C3 at a concrete out-of-order request. -/
theorem C3_out_of_order_request_is_dispatched_witness :
    process_query
        (fun _ _ => .ok { summary := some "google ok" })
        [{ candidates := [{ content := { parts :=
            [{ function_call := some ⟨"search_google_flights", [("origin", "JFK")]⟩ }] } }] },
         { candidates := [{ content := { parts := [{ text := some "done" }] } }] }]
        "q" =
      ⟨retOf (toolLoop (fun _ _ => .ok { summary := some "google ok" }) []
          { candidates := [{ content := { parts := [{ text := some "done" }] } }] }).res,
       ⟨.userText "q", ["search_flights"]⟩ ::
         ⟨.funcResponse "search_google_flights" { summary := some "google ok" }, []⟩ ::
           (toolLoop (fun _ _ => .ok { summary := some "google ok" }) []
              { candidates := [{ content := { parts := [{ text := some "done" }] } }] }).sends,
       .out (.userText "q") ::
         .modelMsg { candidates := [{ content := { parts :=
            [{ function_call := some ⟨"search_google_flights", [("origin", "JFK")]⟩ }] } }] } ::
         .out (.funcResponse "search_google_flights" { summary := some "google ok" }) ::
         .modelMsg { candidates := [{ content := { parts := [{ text := some "done" }] } }] } ::
           (toolLoop (fun _ _ => .ok { summary := some "google ok" }) []
              { candidates := [{ content := { parts := [{ text := some "done" }] } }] }).hist⟩ :=
  C3_out_of_order_request_is_dispatched (fun _ _ => .ok { summary := some "google ok" }) []
    "q" _ _ ⟨"search_google_flights", [("origin", "JFK")]⟩
    { summary := some "google ok" } rfl rfl rfl

/-- Claim C4 counterexample: the model requests the unregistered name
`book_hotel`; the error result is sent and the loop breaks, but the run does
not end in a FAILED state — the model reply to the error result is returned
as the answer — and the session history ends with that model reply, not with
the capability-result segment. -/
theorem C4_counterexample :
    (process_query (fun _ _ => .error "unused")
        [{ candidates := [{ content := { parts :=
            [{ function_call := some ⟨"book_hotel", [("city", "Paris")]⟩ }] } }] },
         { candidates := [{ content := { parts := [{ text := some "ok" }] } }] }]
        "q").ret = some "ok" ∧
    (process_query (fun _ _ => .error "unused")
        [{ candidates := [{ content := { parts :=
            [{ function_call := some ⟨"book_hotel", [("city", "Paris")]⟩ }] } }] },
         { candidates := [{ content := { parts := [{ text := some "ok" }] } }] }]
        "q").history.getLast? =
      some (.modelMsg
        { candidates := [{ content := { parts := [{ text := some "ok" }] } }] }) :=
  ⟨rfl, rfl⟩

/-- Claim C4, amended: on a request for an unregistered name, a
capability-result carrying the error `Unknown function` followed by that name
is sent back with no capabilities offered, exactly one further model exchange
occurs (the loop breaks), and the model reply to the error result is
aggregated and returned; the history ends with that reply. -/
theorem C4_unknown_name_error_result_then_break (ct : ToolOracle)
    (rest : List Response) (q : String) (r r₂ : Response) (fc : FunctionCall)
    (h₁ : firstFunctionCall r = some fc)
    (hm : fc.name ∉ AVAILABLE_FLIGHT_TOOLS) :
    process_query ct (r :: r₂ :: rest) q =
      ⟨aggregateFinal r₂,
       [⟨.userText q, ["search_flights"]⟩,
        ⟨.funcResponse fc.name { error := some ("Unknown function " ++ fc.name) }, []⟩],
       [.out (.userText q), .modelMsg r,
        .out (.funcResponse fc.name { error := some ("Unknown function " ++ fc.name) }),
        .modelMsg r₂]⟩ := by
  simp only [process_query, toolLoop_unknown ct rest r r₂ fc h₁ hm, retOf]

/-- Witness for the amended claim C4 at a concrete unregistered request. -/
theorem C4_unknown_name_error_result_then_break_witness :
    process_query (fun _ _ => .error "unused")
        [{ candidates := [{ content := { parts :=
            [{ function_call := some ⟨"book_hotel", []⟩ }] } }] },
         { candidates := [{ content := { parts := [{ text := some "ok" }] } }] }]
        "q" =
      ⟨aggregateFinal
         { candidates := [{ content := { parts := [{ text := some "ok" }] } }] },
       [⟨.userText "q", ["search_flights"]⟩,
        ⟨.funcResponse "book_hotel" { error := some ("Unknown function " ++ "book_hotel") }, []⟩],
       [.out (.userText "q"),
        .modelMsg { candidates := [{ content := { parts :=
            [{ function_call := some ⟨"book_hotel", []⟩ }] } }] },
        .out (.funcResponse "book_hotel" { error := some ("Unknown function " ++ "book_hotel") }),
        .modelMsg { candidates := [{ content := { parts := [{ text := some "ok" }] } }] }]⟩ :=
  C4_unknown_name_error_result_then_break (fun _ _ => .error "unused") [] "q" _ _
    ⟨"book_hotel", []⟩ rfl (by decide)

/-- Claim C5: when the first capability adapter returns an error dictionary,
the capability-result sent back carries exactly that error string in its
payload, unmodified, the send offers exactly the second capability, and the
loop continues on the next scripted response — an adapter-level error is
never terminal for the run. -/
theorem C5_adapter_error_forwarded_verbatim_nonterminal (ct : ToolOracle)
    (rest : List Response) (q : String) (r r₂ : Response) (fc : FunctionCall)
    (X : String)
    (h₁ : firstFunctionCall r = some fc)
    (h₂ : fc.name = "search_flights")
    (h₃ : ct fc.name fc.args = .ok { error := some X }) :
    process_query ct (r :: r₂ :: rest) q =
      ⟨retOf (toolLoop ct rest r₂).res,
       ⟨.userText q, ["search_flights"]⟩ ::
         ⟨.funcResponse "search_flights" { error := some X },
          ["search_google_flights"]⟩ :: (toolLoop ct rest r₂).sends,
       .out (.userText q) :: .modelMsg r ::
         .out (.funcResponse "search_flights" { error := some X }) :: .modelMsg r₂ ::
           (toolLoop ct rest r₂).hist⟩ := by
  have hm : fc.name ∈ AVAILABLE_FLIGHT_TOOLS := by rw [h₂]; decide
  have hstep := toolLoop_known_ok ct rest r r₂ fc { error := some X } h₁ hm h₃
  rw [h₂, if_pos rfl] at hstep
  simp only [process_query, hstep]

/-- Witness for claim C5 at a concrete rate-limit error. -/
theorem C5_adapter_error_forwarded_verbatim_nonterminal_witness :
    process_query (fun _ _ => .ok { error := some "rate limited" })
        [{ candidates := [{ content := { parts :=
            [{ function_call := some ⟨"search_flights", [("origin", "NYC")]⟩ }] } }] },
         { candidates := [{ content := { parts := [{ text := some "sorry" }] } }] }]
        "q" =
      ⟨retOf (toolLoop (fun _ _ => .ok { error := some "rate limited" }) []
          { candidates := [{ content := { parts := [{ text := some "sorry" }] } }] }).res,
       ⟨.userText "q", ["search_flights"]⟩ ::
         ⟨.funcResponse "search_flights" { error := some "rate limited" },
          ["search_google_flights"]⟩ ::
           (toolLoop (fun _ _ => .ok { error := some "rate limited" }) []
              { candidates := [{ content := { parts := [{ text := some "sorry" }] } }] }).sends,
       .out (.userText "q") ::
         .modelMsg { candidates := [{ content := { parts :=
            [{ function_call := some ⟨"search_flights", [("origin", "NYC")]⟩ }] } }] } ::
         .out (.funcResponse "search_flights" { error := some "rate limited" }) ::
         .modelMsg { candidates := [{ content := { parts := [{ text := some "sorry" }] } }] } ::
           (toolLoop (fun _ _ => .ok { error := some "rate limited" }) []
              { candidates := [{ content := { parts := [{ text := some "sorry" }] } }] }).hist⟩ :=
  C5_adapter_error_forwarded_verbatim_nonterminal
    (fun _ _ => .ok { error := some "rate limited" }) [] "q" _ _
    ⟨"search_flights", [("origin", "NYC")]⟩ "rate limited" rfl rfl rfl

/-- Claim C6: in every run, every send whose content is the result of
`search_flights` offers exactly `search_google_flights` and nothing else, and
every send whose content is the result of `search_google_flights` offers no
capabilities at all. -/
theorem C6_offered_sets_per_turn (ct : ToolOracle) (script : List Response)
    (q : String) :
    ∀ rec ∈ (process_query ct script q).sends,
      (∀ p, rec.content = SentContent.funcResponse "search_flights" p →
        rec.tools = ["search_google_flights"]) ∧
      (∀ p, rec.content = SentContent.funcResponse "search_google_flights" p →
        rec.tools = []) := by
  intro rec hrec
  have key : rec = ⟨SentContent.userText q, ["search_flights"]⟩ ∨
      ∃ n p, rec.content = SentContent.funcResponse n p ∧
        rec.tools = (if n = "search_flights" then ["search_google_flights"] else []) := by
    cases script with
    | nil =>
      left
      simpa [process_query] using hrec
    | cons r rest =>
      simp only [process_query] at hrec
      rcases List.mem_cons.mp hrec with h | h
      · left; exact h
      · right; exact toolLoop_sends_shape ct rest r rec h
  rcases key with h | ⟨n, p', hc, ht⟩
  · subst h
    constructor
    · intro p hp; simp at hp
    · intro p hp; simp at hp
  · constructor
    · intro p hp
      rw [hc] at hp
      injection hp with hn _
      rw [ht, hn, if_pos rfl]
    · intro p hp
      rw [hc] at hp
      injection hp with hn _
      rw [ht, hn, if_neg (by decide)]

/-- Witness for claim C6 on a complete two-capability run. -/
theorem C6_offered_sets_per_turn_witness :
    (⟨SentContent.funcResponse "search_flights" {}, ["search_google_flights"]⟩ :
        SendRec).tools = ["search_google_flights"] :=
  (C6_offered_sets_per_turn (fun _ _ => .ok {})
    [{ candidates := [{ content := { parts :=
        [{ function_call := some ⟨"search_flights", []⟩ }] } }] },
     { candidates := [{ content := { parts :=
        [{ function_call := some ⟨"search_google_flights", []⟩ }] } }] },
     { candidates := [{ content := { parts := [{ text := some "fin" }] } }] }]
    "q" ⟨.funcResponse "search_flights" {}, ["search_google_flights"]⟩
    (by decide)).1 {} rfl

/-- Claim C7 counterexample: a response whose first part is text and whose
second part is an invocation request triggers no dispatch at all — the loop
condition checks only the first content part, so the text is returned as the
answer and the only send is the initial one. -/
theorem C7_counterexample :
    (process_query (fun _ _ => .error "never")
        [{ candidates := [{ content := { parts :=
            [{ text := some "Let me search" },
             { function_call := some ⟨"search_flights", [("origin", "NYC")]⟩ }] } }] }]
        "q").ret = some "Let me search" ∧
    (process_query (fun _ _ => .error "never")
        [{ candidates := [{ content := { parts :=
            [{ text := some "Let me search" },
             { function_call := some ⟨"search_flights", [("origin", "NYC")]⟩ }] } }] }]
        "q").sends = [⟨.userText "q", ["search_flights"]⟩] :=
  ⟨rfl, rfl⟩

/-- Claim C7, amended: dispatch is decided solely by the invocation request
in the first content part of the first candidate. Two responses sharing that
leading invocation request produce the same returned value and the same send
trace, however their later parts differ — so at most the position-0
invocation request is honored and all later invocation requests are
ignored. -/
theorem C7_dispatch_depends_only_on_first_part (ct : ToolOracle)
    (rest : List Response) (q : String) (r₁ r₂ : Response) (fc : FunctionCall)
    (h₁ : firstFunctionCall r₁ = some fc) (h₂ : firstFunctionCall r₂ = some fc) :
    (process_query ct (r₁ :: rest) q).ret = (process_query ct (r₂ :: rest) q).ret ∧
    (process_query ct (r₁ :: rest) q).sends =
      (process_query ct (r₂ :: rest) q).sends := by
  have h := toolLoop_congr ct rest r₁ r₂ fc h₁ h₂
  simp [process_query, h]

/-- Witness for the amended claim C7: a response with a trailing extra
invocation request behaves like the response without it. -/
theorem C7_dispatch_depends_only_on_first_part_witness :
    (process_query (fun _ _ => .ok {})
        [{ candidates := [{ content := { parts :=
            [{ function_call := some ⟨"search_flights", []⟩ },
             { function_call := some ⟨"search_google_flights", []⟩ }] } }] }]
        "q").ret =
      (process_query (fun _ _ => .ok {})
        [{ candidates := [{ content := { parts :=
            [{ function_call := some ⟨"search_flights", []⟩ }] } }] }]
        "q").ret :=
  (C7_dispatch_depends_only_on_first_part (fun _ _ => .ok {}) [] "q"
    { candidates := [{ content := { parts :=
        [{ function_call := some ⟨"search_flights", []⟩ },
         { function_call := some ⟨"search_google_flights", []⟩ }] } }] }
    { candidates := [{ content := { parts :=
        [{ function_call := some ⟨"search_flights", []⟩ }] } }] }
    ⟨"search_flights", []⟩ rfl rfl).1

/-- Claim C8: a capability-result segment whose payload has no truthy error
and a non-empty flights list renders as the header line followed by one
formatted line per flight record in payload order — each line carrying
airline, the route as origin to destination, departure and arrival times,
stop count, price with currency, and the notes field — with the summary
appended after the listing when present; a segment whose payload carries a
non-empty error renders only the problem line and no flight listing. -/
theorem C8_flights_and_error_rendering :
    (∀ (nm : String) (p : Payload) (fs : List FlightRecord),
        truthy p.error = false → p.flights = some fs → fs ≠ [] →
        renderPart { text := none, function_call := none,
                     function_response := some ⟨nm, p⟩ } =
          "\nHere are the best flight options I found for you:" ::
            ((enumFrom 1 fs).map fun x => formatFlight x.1 x.2) ++
            (if truthy p.summary then ["\nSummary: " ++ p.summary.getD ""] else [])) ∧
    (∀ (nm e : String) (p : Payload), p.error = some e → e ≠ "" →
        renderPart { text := none, function_call := none,
                     function_response := some ⟨nm, p⟩ } =
          ["Sorry, there was a problem: " ++ e]) := by
  constructor
  · intro nm p fs he hf hne
    simp [renderPart, renderPayload, he, hf, truthyList, hne]
  · intro nm e p he hne
    simp [renderPart, renderPayload, he, truthy, hne]

/-- Witness for claim C8 on a one-flight payload with summary and on a
rate-limited error payload. -/
theorem C8_flights_and_error_rendering_witness :
    (renderPart
        ⟨none, none,
         some ⟨"search_flights",
               { flights :=
                   some [⟨"Delta", "JFK", "LHR", "08:00", "20:00", 0, "450", "USD", "DL1"⟩],
                 summary := some "1 found" }⟩⟩ =
      "\nHere are the best flight options I found for you:" ::
        ((enumFrom 1 [⟨"Delta", "JFK", "LHR", "08:00", "20:00", 0, "450", "USD", "DL1"⟩]).map
          fun x => formatFlight x.1 x.2) ++
        (if truthy (some "1 found") then ["\nSummary: " ++ (some "1 found").getD ""]
         else [])) ∧
    (renderPart
        ⟨none, none, some ⟨"search_flights", { error := some "rate limited" }⟩⟩ =
      ["Sorry, there was a problem: " ++ "rate limited"]) :=
  ⟨C8_flights_and_error_rendering.1 "search_flights"
     { flights := some [⟨"Delta", "JFK", "LHR", "08:00", "20:00", 0, "450", "USD", "DL1"⟩],
       summary := some "1 found" }
     [⟨"Delta", "JFK", "LHR", "08:00", "20:00", 0, "450", "USD", "DL1"⟩]
     (by decide) rfl (by decide),
   C8_flights_and_error_rendering.2 "search_flights" "rate limited"
     { error := some "rate limited" } rfl (by decide)⟩

/-- Claim C9: aggregation of a final response is a pure function of the
response value — structurally equal responses aggregate to the same string,
and aggregating the same response twice yields the same string both times. -/
theorem C9_aggregation_deterministic (r₁ r₂ : Response) (h : r₁ = r₂) :
    aggregateFinal r₁ = aggregateFinal r₂ ∧
      aggregateFinal r₁ = aggregateFinal r₁ :=
  ⟨by rw [h], rfl⟩

/-- Witness for claim C9 at a concrete response. -/
theorem C9_aggregation_deterministic_witness :
    aggregateFinal { candidates := [{ content := { parts := [{ text := some "hi" }] } }] } =
      aggregateFinal { candidates := [{ content := { parts := [{ text := some "hi" }] } }] } ∧
    aggregateFinal { candidates := [{ content := { parts := [{ text := some "hi" }] } }] } =
      aggregateFinal { candidates := [{ content := { parts := [{ text := some "hi" }] } }] } :=
  C9_aggregation_deterministic _ _ rfl

/-- Claim C10: when the location lookup fails to resolve the origin, the
unified search returns the error naming the origin — also when the
destination fails too, since the origin is checked first — and when only the
destination fails it returns the error naming the destination; in both cases
the result does not depend on the downstream flight-search function, which is
therefore never invoked. -/
theorem C10_unresolved_endpoint_short_circuits :
    (∀ (lookup : String → LocResult) (s₁ s₂ : SkySearchArgs → Payload)
        (o d dd : String) (rd : Option String) (cc : String) (ad : Nat)
        (sb cur mkt ctry : String) (pfs : Option (List String)),
        locFailed (lookup o) = true →
          unified_search_flights lookup s₁ o d dd rd cc ad sb cur mkt ctry pfs =
            { error := some ("Could not find Sky Scrapper location for origin: " ++ o) } ∧
          unified_search_flights lookup s₁ o d dd rd cc ad sb cur mkt ctry pfs =
            unified_search_flights lookup s₂ o d dd rd cc ad sb cur mkt ctry pfs) ∧
    (∀ (lookup : String → LocResult) (s₁ s₂ : SkySearchArgs → Payload)
        (o d dd : String) (rd : Option String) (cc : String) (ad : Nat)
        (sb cur mkt ctry : String) (pfs : Option (List String)),
        locFailed (lookup o) = false → locFailed (lookup d) = true →
          unified_search_flights lookup s₁ o d dd rd cc ad sb cur mkt ctry pfs =
            { error := some ("Could not find Sky Scrapper location for destination: " ++ d) } ∧
          unified_search_flights lookup s₁ o d dd rd cc ad sb cur mkt ctry pfs =
            unified_search_flights lookup s₂ o d dd rd cc ad sb cur mkt ctry pfs) := by
  constructor
  · intro lookup s₁ s₂ o d dd rd cc ad sb cur mkt ctry pfs h
    have hg := get_sky_ids_err_origin lookup o d h
    exact ⟨by simp only [unified_search_flights, hg],
           by simp only [unified_search_flights, hg]⟩
  · intro lookup s₁ s₂ o d dd rd cc ad sb cur mkt ctry pfs h₀ h
    have hg := get_sky_ids_err_destination lookup o d h₀ h
    exact ⟨by simp only [unified_search_flights, hg],
           by simp only [unified_search_flights, hg]⟩

/-- Witness for claim C10: a lookup resolving nothing yields the origin
error, and a lookup resolving only the origin yields the destination error;
both results are identical under two different downstream search functions. -/
theorem C10_unresolved_endpoint_short_circuits_witness :
    (unified_search_flights (fun _ => {}) (fun _ => { summary := some "s1" })
        "NYC" "LON" "2025-06-01" none "economy" 1 "best" "USD" "en-US" "US" none =
      { error := some ("Could not find Sky Scrapper location for origin: " ++ "NYC") } ∧
     unified_search_flights (fun _ => {}) (fun _ => { summary := some "s1" })
        "NYC" "LON" "2025-06-01" none "economy" 1 "best" "USD" "en-US" "US" none =
      unified_search_flights (fun _ => {}) (fun _ => { summary := some "s2" })
        "NYC" "LON" "2025-06-01" none "economy" 1 "best" "USD" "en-US" "US" none) ∧
    (unified_search_flights
        (fun qy => if qy = "NYC"
          then { results := some [{ skyId := some "NYCA", entityId := some "27537542" }] }
          else {})
        (fun _ => { summary := some "s1" })
        "NYC" "LON" "2025-06-01" none "economy" 1 "best" "USD" "en-US" "US" none =
      { error := some ("Could not find Sky Scrapper location for destination: " ++ "LON") } ∧
     unified_search_flights
        (fun qy => if qy = "NYC"
          then { results := some [{ skyId := some "NYCA", entityId := some "27537542" }] }
          else {})
        (fun _ => { summary := some "s1" })
        "NYC" "LON" "2025-06-01" none "economy" 1 "best" "USD" "en-US" "US" none =
      unified_search_flights
        (fun qy => if qy = "NYC"
          then { results := some [{ skyId := some "NYCA", entityId := some "27537542" }] }
          else {})
        (fun _ => { summary := some "s2" })
        "NYC" "LON" "2025-06-01" none "economy" 1 "best" "USD" "en-US" "US" none) :=
  ⟨C10_unresolved_endpoint_short_circuits.1 (fun _ => {})
      (fun _ => { summary := some "s1" }) (fun _ => { summary := some "s2" })
      "NYC" "LON" "2025-06-01" none "economy" 1 "best" "USD" "en-US" "US" none rfl,
   C10_unresolved_endpoint_short_circuits.2
      (fun qy => if qy = "NYC"
        then { results := some [{ skyId := some "NYCA", entityId := some "27537542" }] }
        else {})
      (fun _ => { summary := some "s1" }) (fun _ => { summary := some "s2" })
      "NYC" "LON" "2025-06-01" none "economy" 1 "best" "USD" "en-US" "US" none
      (by decide) (by decide)⟩

end FlightAgent
